import Mathlib

/-
Verification of the authentication core of the authen_system backend.

The Python sources under backend/app are shallowly embedded: JWT payloads
become association lists of claims, the signing step becomes tagging a
payload with the signing key (two serialized JWTs are equal exactly when
their payload and key agree), datetimes become integer epoch seconds, and
each service method becomes a pure function from its inputs (the rows the
SQLAlchemy queries would fetch) to its results and the rows it writes back.
-/

namespace Authen

/-- JSON claim values as they occur in the token payloads of this system:
strings and integers (datetimes are serialized to epoch seconds). -/
inductive JVal where
  | s (v : String)
  | n (v : Int)
deriving DecidableEq

/-- A JWT payload: a Python dict from claim name to value, kept as an
association list with unique keys (inserts overwrite). -/
abbrev Claims := List (String × JVal)

/-- Dict lookup, `payload.get(key)`. -/
def dget : Claims → String → Option JVal
  | [], _ => none
  | p :: rest, key => if p.1 = key then some p.2 else dget rest key

/-- Removal of every entry under a key (the overwrite half of a dict
assignment). -/
def dremove (key : String) : Claims → Claims
  | [] => []
  | p :: rest => if p.1 = key then dremove key rest else p :: dremove key rest

/-- Dict insert-or-overwrite, `d[key] = v`. -/
def dset (d : Claims) (key : String) (v : JVal) : Claims :=
  dremove key d ++ [(key, v)]

/-- Dict update, `d.update(extra)`: insert the entries of `extra` in
order, overwriting existing keys. -/
def dupdate : Claims → Claims → Claims
  | d, [] => d
  | d, p :: rest => dupdate (dset d p.1 p.2) rest

/-- A well-formed signed JWT: its payload and the key it was signed with
(`jwt.encode(claims, key, algorithm)` from app/core/security.py). -/
structure Token where
  claims : Claims
  key : String
deriving DecidableEq

/-- A string presented for verification: either the serialization of a
well-formed signed token or any other (malformed / truncated / tampered)
string, which PyJWT rejects with a decode error. -/
inductive TokenInput where
  | valid (t : Token)
  | malformed (raw : String)
deriving DecidableEq

/-- Equality test between a presented token string and a stored token
string (the SQLAlchemy `refresh_token == token` filters): a malformed
string never equals the serialization of a well-formed token. -/
def token_matches (input : TokenInput) (stored : Token) : Bool :=
  match input with
  | .valid t => t == stored
  | .malformed _ => false

/-- Result of a Python call: a returned value, or an exception escaping
the function. -/
inductive PyResult (α : Type) where
  | ok (value : α)
  | raised (message : String)
deriving DecidableEq

/-- The fields of app/core/config.py Settings that the authentication core
reads. -/
structure Settings where
  SECRET_KEY : String
  ACCESS_TOKEN_EXPIRE_MINUTES : Int
  REFRESH_TOKEN_EXPIRE_DAYS : Int
  PASSWORD_MIN_LENGTH : Int
  PASSWORD_REQUIRE_UPPERCASE : Bool
  PASSWORD_REQUIRE_LOWERCASE : Bool
  PASSWORD_REQUIRE_NUMBERS : Bool
  PASSWORD_REQUIRE_SPECIAL : Bool
  MAX_LOGIN_ATTEMPTS : Int
  LOCKOUT_DURATION_MINUTES : Int
deriving DecidableEq

/-- SecurityUtils.create_access_token. `expires_delta` is an optional
timedelta in seconds; Python truthiness sends both None and timedelta(0)
to the default TTL. The dict update lets additional claims overwrite the
reserved ones. -/
def create_access_token (cfg : Settings) (now : Int) (subject : String)
    (expires_delta : Option Int) (additional_claims : Claims) : Token :=
  let expire : Int :=
    match expires_delta with
    | some d => if d = 0 then now + cfg.ACCESS_TOKEN_EXPIRE_MINUTES * 60 else now + d
    | none => now + cfg.ACCESS_TOKEN_EXPIRE_MINUTES * 60
  let to_encode : Claims :=
    [("exp", .n expire), ("sub", .s subject), ("type", .s "access"), ("iat", .n now)]
  { claims := dupdate to_encode additional_claims, key := cfg.SECRET_KEY }

/-- SecurityUtils.create_refresh_token. `jti` stands for the random
`secrets.token_urlsafe(32)` value and is passed in explicitly. -/
def create_refresh_token (cfg : Settings) (now : Int) (subject : String)
    (expires_delta : Option Int) (jti : String) : Token :=
  let expire : Int :=
    match expires_delta with
    | some d => if d = 0 then now + cfg.REFRESH_TOKEN_EXPIRE_DAYS * 86400 else now + d
    | none => now + cfg.REFRESH_TOKEN_EXPIRE_DAYS * 86400
  { claims := [("exp", .n expire), ("sub", .s subject), ("type", .s "refresh"),
               ("iat", .n now), ("jti", .s jti)],
    key := cfg.SECRET_KEY }

/-- SecurityUtils.generate_password_reset_token: TTL fixed at 1 hour. -/
def generate_password_reset_token (cfg : Settings) (now : Int) (email : String) : Token :=
  { claims := [("exp", .n (now + 3600)), ("sub", .s email),
               ("type", .s "password_reset"), ("iat", .n now)],
    key := cfg.SECRET_KEY }

/-- SecurityUtils.generate_email_verification_token: TTL fixed at 7 days. -/
def generate_email_verification_token (cfg : Settings) (now : Int) (email : String) : Token :=
  { claims := [("exp", .n (now + 604800)), ("sub", .s email),
               ("type", .s "email_verification"), ("iat", .n now)],
    key := cfg.SECRET_KEY }

/-- Failure modes of SecurityUtils.verify_token, in the order the code can
hit them. The first two arise inside `jwt.decode` (PyJWT raises
InvalidSignatureError / DecodeError / ExpiredSignatureError, all caught by
the `except jwt.PyJWTError` clause); `kindMismatch` and `expiredAtCheck`
are the two explicit checks; `overflowRaised` marks the call
`datetime.fromtimestamp(exp)` raising outside the except clause. -/
inductive VerifyError where
  | invalidSignature
  | expiredAtDecode
  | kindMismatch
  | expiredAtCheck
  | overflowRaised
deriving DecidableEq

/-- Modelled boundary: `jwt.decode(token, key, algorithms)` from PyJWT.
It rejects anything not signed with `key`, requires the `exp` claim, when
present, to be an integer, and raises ExpiredSignatureError when
`exp <= now`. On success it returns the payload unchanged. -/
def jwt_decode (tok : TokenInput) (key : String) (now : Int) : Except VerifyError Claims :=
  match tok with
  | .malformed _ => .error .invalidSignature
  | .valid t =>
    if t.key ≠ key then .error .invalidSignature
    else
      match dget t.claims "exp" with
      | some (.n e) => if e ≤ now then .error .expiredAtDecode else .ok t.claims
      | some (.s _) => .error .invalidSignature
      | none => .ok t.claims

/-- Modelled boundary: the domain of `datetime.fromtimestamp` on CPython,
which raises for epoch seconds outside the representable datetime range
(year 1 to year 9999). -/
def fromtimestamp_ok (ts : Int) : Bool :=
  decide (-62135596800 ≤ ts) && decide (ts ≤ 253402300799)

/-- SecurityUtils.verify_token with the failure reason made explicit:
decode, then the `payload.get("type") != token_type` check, then
`datetime.utcnow() > datetime.fromtimestamp(payload.get("exp", 0))`. -/
def verify_tokenE (cfg : Settings) (now : Int) (tok : TokenInput)
    (token_type : String) : Except VerifyError Claims :=
  match jwt_decode tok cfg.SECRET_KEY now with
  | .error e => .error e
  | .ok payload =>
    if dget payload "type" ≠ some (.s token_type) then .error .kindMismatch
    else
      let expv : Int := match dget payload "exp" with | some (.n e) => e | _ => 0
      if fromtimestamp_ok expv then
        if now > expv then .error .expiredAtCheck else .ok payload
      else .error .overflowRaised

/-- SecurityUtils.verify_token as the caller sees it: Optional[dict], with
every PyJWTError swallowed to None — except the fromtimestamp overflow,
which is not a PyJWTError and escapes as an exception. -/
def verify_token (cfg : Settings) (now : Int) (tok : TokenInput)
    (token_type : String) : PyResult (Option Claims) :=
  match verify_tokenE cfg now tok token_type with
  | .ok payload => .ok (some payload)
  | .error .overflowRaised => .raised "OverflowError"
  | .error _ => .ok none

/-- SecurityUtils.verify_password_reset_token: decode, check the kind,
return the `sub` claim (the email). There is no expiry double-check here;
decode already rejected expired tokens. -/
def verify_password_reset_token (cfg : Settings) (now : Int) (tok : TokenInput) : Option String :=
  match jwt_decode tok cfg.SECRET_KEY now with
  | .error _ => none
  | .ok payload =>
    if dget payload "type" ≠ some (.s "password_reset") then none
    else
      match dget payload "sub" with
      | some (.s email) => some email
      | _ => none

/-- Modelled boundary: passlib bcrypt hashing (SecurityUtils.get_password_hash).
The scheme is an external library; it is abstracted as an injective tag so
that verify_password succeeds exactly on the hashed password. -/
def get_password_hash (password : String) : String :=
  "bcrypt$" ++ password

/-- SecurityUtils.verify_password through the same modelled boundary. -/
def verify_password (plain hashed : String) : Bool :=
  get_password_hash plain == hashed

/-- Python str.lower(), mapping over the characters of the string. -/
def py_lower (s : String) : String :=
  ⟨s.data.map Char.toLower⟩

/-- Python `any(p(c) for c in s)`: iteration over the characters. -/
def py_any (s : String) (p : Char → Bool) : Bool :=
  s.data.any p

/-- Python `c in s` for a string s: character membership. -/
def py_char_in (c : Char) (s : String) : Bool :=
  s.data.any (fun x => x == c)

/-- Return shape of SecurityUtils.validate_password_strength. -/
structure PasswordValidation where
  is_valid : Bool
  errors : List String
  strength_score : Int
deriving DecidableEq

/-- The special-character set from SecurityUtils.validate_password_strength. -/
def special_characters : String := "!@#$%^&*()_+-=[]\x7b\x7d|;:,.<>?"

/-- SecurityUtils.validate_password_strength: one error message per failed
configured rule, valid iff no errors, score 100 minus 20 per error floored
at 0. -/
def validate_password_strength (cfg : Settings) (password : String) : PasswordValidation :=
  let errors : List String :=
    (if (password.length : Int) < cfg.PASSWORD_MIN_LENGTH then
      ["Password must be at least " ++ toString cfg.PASSWORD_MIN_LENGTH ++ " characters long"]
     else []) ++
    (if cfg.PASSWORD_REQUIRE_UPPERCASE && !(py_any password Char.isUpper) then
      ["Password must contain at least one uppercase letter"] else []) ++
    (if cfg.PASSWORD_REQUIRE_LOWERCASE && !(py_any password Char.isLower) then
      ["Password must contain at least one lowercase letter"] else []) ++
    (if cfg.PASSWORD_REQUIRE_NUMBERS && !(py_any password Char.isDigit) then
      ["Password must contain at least one number"] else []) ++
    (if cfg.PASSWORD_REQUIRE_SPECIAL && !(py_any password (fun c => py_char_in c special_characters)) then
      ["Password must contain at least one special character"] else [])
  { is_valid := errors.length == 0
    errors := errors
    strength_score := max 0 (100 - (errors.length : Int) * 20) }

/-- The columns of the users table (app/models/user.py User) that the
authentication core reads or writes; ids are abstract Nats. -/
structure User where
  id : Nat
  email : String
  password_hash : String
  role : String
  is_active : Bool
  is_verified : Bool
  is_locked : Bool
  failed_login_attempts : Int
  locked_until : Option Int
  last_login : Option Int
  password_changed_at : Int
  updated_at : Int
deriving DecidableEq

/-- The columns of the user_sessions table (app/models/user.py UserSession)
the core uses. The stored refresh_token is always the serialization of a
well-formed token, since only create_user_session writes it. -/
structure UserSession where
  id : Nat
  user_id : Nat
  refresh_token : Token
  created_at : Int
  expires_at : Int
  last_used_at : Int
  is_active : Bool
deriving DecidableEq

/-- The columns of the password_resets table (app/models/user.py
PasswordReset) the core uses. -/
structure PasswordReset where
  id : Nat
  user_id : Nat
  token : Token
  is_used : Bool
  created_at : Int
  expires_at : Int
  used_at : Option Int
  ip_address : Option String
  user_agent : Option String
deriving DecidableEq

/-- UserService.get_user_by_email: first row with email equal to the
lower-cased lookup key. -/
def get_user_by_email (users : List User) (email : String) : Option User :=
  users.find? (fun u => u.email == py_lower email)

/-- UserService.get_user_by_id. -/
def get_user_by_id (users : List User) (uid : Nat) : Option User :=
  users.find? (fun u => u.id == uid)

/-- The recurring `update({"is_active": False})` over all sessions of one
user (logout, password change, reset completion, lock, delete). -/
def deactivate_for_user (uid : Nat) (sessions : List UserSession) : List UserSession :=
  sessions.map (fun s => if s.user_id == uid then { s with is_active := false } else s)

/-- Guard of the first lockout branch of AuthService.authenticate_user:
`user.locked_until and datetime.utcnow() < user.locked_until`. -/
def before_lockout_expiry (locked_until : Option Int) (now : Int) : Bool :=
  match locked_until with
  | some t => decide (now < t)
  | none => false

/-- Guard of the unlock step on successful authentication:
`user.locked_until and datetime.utcnow() >= user.locked_until`. -/
def after_lockout_expiry (locked_until : Option Int) (now : Int) : Bool :=
  match locked_until with
  | some t => decide (now ≥ t)
  | none => false

/-- What one authenticate_user call returns and writes back: the returned
user (None on failure), the error message, and the stored row after the
commit (None when no row matched the email). -/
structure AuthOutcome where
  user : Option User
  error : Option String
  db_user : Option User
deriving DecidableEq

/-- AuthService.authenticate_user on the row the email lookup found.
The lockout message renders `remaining_time.seconds // 60` where
remaining_time is a positive timedelta, hence the mod 86400. -/
def authenticate_user (cfg : Settings) (now : Int) (password : String)
    (found : Option User) : AuthOutcome :=
  match found with
  | none => ⟨none, some "Invalid email or password", none⟩
  | some u =>
    if u.is_locked && before_lockout_expiry u.locked_until now then
      let t := u.locked_until.getD 0
      ⟨none, some ("Account is locked. Try again in " ++
        toString ((t - now).toNat % 86400 / 60) ++ " minutes"), some u⟩
    else if u.is_locked && u.locked_until.isNone then
      ⟨none, some "Account is permanently locked. Contact administrator", some u⟩
    else if !u.is_active then
      ⟨none, some "Account is deactivated", some u⟩
    else if !(verify_password password u.password_hash) then
      let attempts := u.failed_login_attempts + 1
      let locked := attempts ≥ cfg.MAX_LOGIN_ATTEMPTS
      let u' :=
        if locked then
          { u with failed_login_attempts := attempts, is_locked := true,
                   locked_until := some (now + cfg.LOCKOUT_DURATION_MINUTES * 60) }
        else { u with failed_login_attempts := attempts }
      ⟨none, some "Invalid email or password", some u'⟩
    else
      let u1 := { u with failed_login_attempts := 0 }
      let u2 :=
        if u1.is_locked && after_lockout_expiry u1.locked_until now then
          { u1 with is_locked := false, locked_until := none }
        else u1
      let u3 := { u2 with last_login := some now }
      ⟨some u3, none, some u3⟩

/-- AuthService.create_user_session: persists a new active session bound
to a fresh refresh token (remember_me doubles the refresh TTL) and mints
an access token carrying email, role and the session id. -/
def create_user_session (cfg : Settings) (now : Int) (u : User)
    (remember_me : Bool) (jti : String) (newId : Nat)
    (sessions : List UserSession) : (Token × Token) × List UserSession :=
  let delta : Int := cfg.REFRESH_TOKEN_EXPIRE_DAYS * (if remember_me then 2 else 1) * 86400
  let refresh_tok := create_refresh_token cfg now (toString u.id) (some delta) jti
  let s : UserSession :=
    { id := newId, user_id := u.id, refresh_token := refresh_tok,
      created_at := now, expires_at := now + delta, last_used_at := now, is_active := true }
  let access_tok := create_access_token cfg now (toString u.id) none
    [("email", .s u.email), ("role", .s u.role), ("session_id", .s (toString newId))]
  ((access_tok, refresh_tok), sessions ++ [s])

/-- What one refresh_access_token call returns and writes back. -/
structure RefreshOutcome where
  access_token : Option Token
  error : Option String
  sessions : List UserSession
deriving DecidableEq

/-- AuthService.refresh_access_token: verify the presented token, find an
active matching session, check its expiry, load the user, touch
last_used_at, mint a fresh access token. `uuid.UUID(user_id)` raising on a
malformed subject is modelled through `String.toNat?`. -/
def refresh_access_token (cfg : Settings) (now : Int) (refresh_token : TokenInput)
    (sessions : List UserSession) (users : List User) : PyResult RefreshOutcome :=
  match verify_token cfg now refresh_token "refresh" with
  | .raised m => .raised m
  | .ok none => .ok ⟨none, some "Invalid or expired refresh token", sessions⟩
  | .ok (some payload) =>
    match dget payload "sub" with
    | some (.s user_id) =>
      if user_id = "" then .ok ⟨none, some "Invalid refresh token", sessions⟩
      else
        match sessions.find? (fun s => token_matches refresh_token s.refresh_token && s.is_active) with
        | none => .ok ⟨none, some "Invalid or expired refresh token", sessions⟩
        | some session =>
          if now > session.expires_at then
            .ok ⟨none, some "Invalid or expired refresh token", sessions⟩
          else
            match user_id.toNat? with
            | none => .raised "ValueError"
            | some uid =>
              match get_user_by_id users uid with
              | none => .ok ⟨none, some "User not found or inactive", sessions⟩
              | some user =>
                if !user.is_active then .ok ⟨none, some "User not found or inactive", sessions⟩
                else
                  let sessions' := sessions.map (fun s =>
                    if s.id == session.id then { s with last_used_at := now } else s)
                  let tok := create_access_token cfg now (toString user.id) none
                    [("email", .s user.email), ("role", .s user.role),
                     ("session_id", .s (toString session.id))]
                  .ok ⟨some tok, none, sessions'⟩
    | some (.n _) => .raised "ValueError"
    | none => .ok ⟨none, some "Invalid refresh token", sessions⟩

/-- AuthService.logout_user: with logout_all_devices, or with no token
supplied, every session of the user is deactivated; with a token, exactly
the sessions of this user bearing it. Always returns True. -/
def logout_user (uid : Nat) (refresh_token : Option TokenInput)
    (logout_all_devices : Bool) (sessions : List UserSession) : Bool × List UserSession :=
  if logout_all_devices then
    (true, deactivate_for_user uid sessions)
  else
    match refresh_token with
    | some t =>
      (true, sessions.map (fun s =>
        if s.user_id == uid && token_matches t s.refresh_token then
          { s with is_active := false } else s))
    | none => (true, deactivate_for_user uid sessions)

/-- AuthService.request_password_reset: silently succeed when the email
matches no user or an inactive user; otherwise persist a reset row
expiring in one hour. Always returns True. -/
def request_password_reset (cfg : Settings) (now : Int) (email : String)
    (users : List User) (resets : List PasswordReset) (newId : Nat)
    (ip_address user_agent : Option String) : Bool × List PasswordReset :=
  match get_user_by_email users email with
  | none => (true, resets)
  | some user =>
    if !user.is_active then (true, resets)
    else
      let reset_token := generate_password_reset_token cfg now user.email
      (true, resets ++ [{ id := newId, user_id := user.id, token := reset_token,
                          is_used := false, created_at := now, expires_at := now + 3600,
                          used_at := none, ip_address := ip_address, user_agent := user_agent }])

/-- What one reset_password call returns and writes back. -/
structure ResetOutcome where
  success : Bool
  error : Option String
  users : List User
  resets : List PasswordReset
  sessions : List UserSession
deriving DecidableEq

/-- AuthService.reset_password: verify the reset token, find the unused
reset row, re-check validity, load the user by the email inside the token,
enforce password strength, then update the hash, consume the row and
deactivate every session of the user. -/
def reset_password (cfg : Settings) (now : Int) (tok : TokenInput) (new_password : String)
    (users : List User) (resets : List PasswordReset) (sessions : List UserSession) :
    ResetOutcome :=
  match verify_password_reset_token cfg now tok with
  | none => ⟨false, some "Invalid or expired reset token", users, resets, sessions⟩
  | some email =>
    if email = "" then ⟨false, some "Invalid or expired reset token", users, resets, sessions⟩
    else
      match resets.find? (fun r => token_matches tok r.token && !r.is_used) with
      | none => ⟨false, some "Invalid or expired reset token", users, resets, sessions⟩
      | some pr =>
        if !(!pr.is_used && !(decide (now > pr.expires_at))) then
          ⟨false, some "Invalid or expired reset token", users, resets, sessions⟩
        else
          match get_user_by_email users email with
          | none => ⟨false, some "User not found", users, resets, sessions⟩
          | some user =>
            let validation := validate_password_strength cfg new_password
            if !validation.is_valid then
              ⟨false, some ("Password validation failed: " ++
                String.intercalate ", " validation.errors), users, resets, sessions⟩
            else
              let users' := users.map (fun x => if x.id == user.id then
                { x with password_hash := get_password_hash new_password,
                         password_changed_at := now, updated_at := now } else x)
              let resets' := resets.map (fun r => if r.id == pr.id then
                { r with is_used := true, used_at := some now } else r)
              ⟨true, none, users', resets', deactivate_for_user user.id sessions⟩

/-- AuthService.revoke_session: deactivate one active session owned by the
user, reporting whether one was found. -/
def revoke_session (uid : Nat) (session_id : Nat) (sessions : List UserSession) :
    Bool × List UserSession :=
  match sessions.find? (fun s => s.id == session_id && s.user_id == uid && s.is_active) with
  | none => (false, sessions)
  | some s =>
    (true, sessions.map (fun x => if x.id == s.id then { x with is_active := false } else x))

/-- AuthService.cleanup_expired_sessions: deactivate every session past
its expiry, returning the matched row count. -/
def cleanup_expired_sessions (now : Int) (sessions : List UserSession) :
    Nat × List UserSession :=
  ((sessions.filter (fun s => s.expires_at < now)).length,
   sessions.map (fun s => if s.expires_at < now then { s with is_active := false } else s))

/-- UserService.create_user on the result of the duplicate-email lookup:
reject duplicates and weak passwords, otherwise build the row with the
column defaults (active per request, unverified, unlocked, counter 0). -/
def create_user (cfg : Settings) (now : Int) (existing : Option User) (newId : Nat)
    (email password role : String) (is_active : Bool) : Except String User :=
  match existing with
  | some _ => .error "User with this email already exists"
  | none =>
    let validation := validate_password_strength cfg password
    if !validation.is_valid then
      .error ("Password validation failed: " ++ String.intercalate ", " validation.errors)
    else
      .ok { id := newId, email := py_lower email,
            password_hash := get_password_hash password, role := role,
            is_active := is_active, is_verified := false, is_locked := false,
            failed_login_attempts := 0, locked_until := none, last_login := none,
            password_changed_at := now, updated_at := now }

/-- UserService.change_password: ValueError escapes on a wrong current
password or a weak new one; on success the hash is replaced and every
session of the user is deactivated. -/
def change_password (cfg : Settings) (now : Int) (found : Option User)
    (current_password new_password : String) (sessions : List UserSession) :
    PyResult (Bool × Option User × List UserSession) :=
  match found with
  | none => .ok (false, none, sessions)
  | some user =>
    if !(verify_password current_password user.password_hash) then
      .raised "ValueError: Current password is incorrect"
    else
      let validation := validate_password_strength cfg new_password
      if !validation.is_valid then
        .raised ("ValueError: Password validation failed: " ++
          String.intercalate ", " validation.errors)
      else
        .ok (true,
             some { user with password_hash := get_password_hash new_password,
                              password_changed_at := now, updated_at := now },
             deactivate_for_user user.id sessions)

/-- UserService.lock_user: permanent lock (locked_until stays null) plus
session invalidation. -/
def lock_user (now : Int) (found : Option User) (sessions : List UserSession) :
    Bool × Option User × List UserSession :=
  match found with
  | none => (false, none, sessions)
  | some user =>
    (true, some { user with is_locked := true, locked_until := none, updated_at := now },
     deactivate_for_user user.id sessions)

/-- UserService.unlock_user: clear the lock flag and timestamp and reset
the failed-attempt counter. -/
def unlock_user (now : Int) (found : Option User) : Bool × Option User :=
  match found with
  | none => (false, none)
  | some user =>
    (true, some { user with is_locked := false, locked_until := none,
                            failed_login_attempts := 0, updated_at := now })

/-- The four token kinds this system issues. -/
inductive TokenKind where
  | access
  | refresh
  | password_reset
  | email_verification
deriving DecidableEq

/-- The `type` claim value each creation function embeds. -/
def kindName : TokenKind → String
  | .access => "access"
  | .refresh => "refresh"
  | .password_reset => "password_reset"
  | .email_verification => "email_verification"

/-- The kind-k creation function applied with its default TTL (no extra
claims for access tokens; `jti` is the random id of refresh tokens). -/
def mkTokenOfKind (cfg : Settings) (k : TokenKind) (now : Int) (subject jti : String) : Token :=
  match k with
  | .access => create_access_token cfg now subject none []
  | .refresh => create_refresh_token cfg now subject none jti
  | .password_reset => generate_password_reset_token cfg now subject
  | .email_verification => generate_email_verification_token cfg now subject

/-- The default TTL each creation function uses. -/
def defaultTTL (cfg : Settings) : TokenKind → Int
  | .access => cfg.ACCESS_TOKEN_EXPIRE_MINUTES * 60
  | .refresh => cfg.REFRESH_TOKEN_EXPIRE_DAYS * 86400
  | .password_reset => 3600
  | .email_verification => 604800

@[simp] theorem dget_nil (k : String) : dget [] k = none := rfl

@[simp] theorem dget_cons (p : String × JVal) (rest : Claims) (k : String) :
    dget (p :: rest) k = if p.1 = k then some p.2 else dget rest k := rfl

theorem dget_append_some (a b : Claims) (k : String) (v : JVal)
    (h : dget a k = some v) : dget (a ++ b) k = some v := by
  induction a with
  | nil => simp at h
  | cons p rest ih =>
    rw [dget_cons] at h
    rw [List.cons_append, dget_cons]
    by_cases hp : p.1 = k
    · rw [if_pos hp] at h ⊢; exact h
    · rw [if_neg hp] at h ⊢; exact ih h

theorem dget_append_none (a b : Claims) (k : String)
    (h : dget a k = none) : dget (a ++ b) k = dget b k := by
  induction a with
  | nil => rfl
  | cons p rest ih =>
    rw [dget_cons] at h
    rw [List.cons_append, dget_cons]
    by_cases hp : p.1 = k
    · rw [if_pos hp] at h; exact absurd h (by simp)
    · rw [if_neg hp] at h ⊢; exact ih h

theorem dget_dremove_self (d : Claims) (k : String) :
    dget (dremove k d) k = none := by
  induction d with
  | nil => rfl
  | cons p rest ih =>
    rw [dremove]
    by_cases hp : p.1 = k
    · rw [if_pos hp]; exact ih
    · rw [if_neg hp, dget_cons, if_neg hp]; exact ih

theorem dget_dremove_other (d : Claims) (k k' : String) (h : k ≠ k') :
    dget (dremove k' d) k = dget d k := by
  induction d with
  | nil => rfl
  | cons p rest ih =>
    rw [dremove, dget_cons]
    by_cases hp : p.1 = k'
    · rw [if_pos hp]
      have hpk : ¬p.1 = k := by rw [hp]; exact Ne.symm h
      rw [if_neg hpk]
      exact ih
    · rw [if_neg hp, dget_cons]
      by_cases hpk : p.1 = k
      · rw [if_pos hpk, if_pos hpk]
      · rw [if_neg hpk, if_neg hpk]; exact ih

theorem dget_dset_self (d : Claims) (k : String) (v : JVal) :
    dget (dset d k v) k = some v := by
  unfold dset
  rw [dget_append_none _ _ _ (dget_dremove_self d k)]
  simp

theorem dget_dset_other (d : Claims) (k k' : String) (v : JVal) (h : k ≠ k') :
    dget (dset d k' v) k = dget d k := by
  unfold dset
  cases hc : dget (dremove k' d) k with
  | some w => rw [dget_append_some _ _ _ _ hc, ← dget_dremove_other d k k' h, hc]
  | none =>
    rw [dget_append_none _ _ _ hc, ← dget_dremove_other d k k' h, hc, dget_cons]
    rw [if_neg (Ne.symm h : ¬k' = k)]
    rfl

theorem dget_dupdate_not_mem (extra : Claims) : ∀ (d : Claims) (k : String),
    (∀ p ∈ extra, p.1 ≠ k) → dget (dupdate d extra) k = dget d k := by
  induction extra with
  | nil => intro d k _; rfl
  | cons p rest ih =>
    intro d k h
    have hp : p.1 ≠ k := h p (List.mem_cons_self _ _)
    have hr : ∀ q ∈ rest, q.1 ≠ k := fun q hq => h q (List.mem_cons_of_mem _ hq)
    show dget (dupdate (dset d p.1 p.2) rest) k = dget d k
    rw [ih _ _ hr, dget_dset_other _ _ _ _ (Ne.symm hp)]

theorem dget_dupdate_mem (extra : Claims) : ∀ (d : Claims) (k : String) (v : JVal),
    (extra.map Prod.fst).Nodup → (k, v) ∈ extra → dget (dupdate d extra) k = some v := by
  induction extra with
  | nil => intro d k v _ h; cases h
  | cons p rest ih =>
    intro d k v hnd h
    rcases List.mem_cons.mp h with heq | hmem
    · have hk : p.1 ∉ rest.map Prod.fst := (List.nodup_cons.mp hnd).1
      have hp1 : p.1 = k := by rw [← heq]
      have hp2 : p.2 = v := by rw [← heq]
      have hr : ∀ q ∈ rest, q.1 ≠ k := by
        intro q hq hqk
        apply hk
        rw [hp1, ← hqk]
        exact List.mem_map_of_mem Prod.fst hq
      show dget (dupdate (dset d p.1 p.2) rest) k = some v
      rw [dget_dupdate_not_mem _ _ _ hr, hp1, dget_dset_self, hp2]
    · exact ih _ _ _ (List.nodup_cons.mp hnd).2 hmem

theorem verify_mismatch_aux (cfg : Settings) (now : Int) (t : Token) (tt : String)
    (hkey : t.key = cfg.SECRET_KEY) (e : Int) (hexp : dget t.claims "exp" = some (.n e))
    (s : String) (hty : dget t.claims "type" = some (.s s)) (hne : s ≠ tt) :
    verify_token cfg now (.valid t) tt = .ok none ∧
    (now < e → verify_tokenE cfg now (.valid t) tt = .error .kindMismatch) := by
  by_cases hle : e ≤ now
  · constructor
    · simp [verify_token, verify_tokenE, jwt_decode, hkey, hexp, hle]
    · intro hlt
      omega
  · constructor
    · simp [verify_token, verify_tokenE, jwt_decode, hkey, hexp, hle, hty, hne]
    · intro _
      simp [verify_tokenE, jwt_decode, hkey, hexp, hle, hty, hne]

/-- C3: verifying, with expected kind k2, a token produced by the kind-k1
creation function of SecurityUtils always fails and never yields claims;
when the token is not yet expired at verification time the failing check
is exactly the kind comparison. -/
theorem token_kind_mismatch (cfg : Settings) (k1 k2 : TokenKind) (nowC nowV : Int)
    (subject jti : String) (hk : k1 ≠ k2) :
    verify_token cfg nowV (.valid (mkTokenOfKind cfg k1 nowC subject jti)) (kindName k2) =
      .ok none ∧
    (nowV < nowC + defaultTTL cfg k1 →
      verify_tokenE cfg nowV (.valid (mkTokenOfKind cfg k1 nowC subject jti)) (kindName k2) =
        .error .kindMismatch) := by
  have hne : kindName k1 ≠ kindName k2 := by
    cases k1 <;> cases k2 <;> simp_all [kindName]
  cases k1
  · exact verify_mismatch_aux cfg nowV _ _ rfl _ rfl _ rfl hne
  · exact verify_mismatch_aux cfg nowV _ _ rfl _ rfl _ rfl hne
  · exact verify_mismatch_aux cfg nowV _ _ rfl _ rfl _ rfl hne
  · exact verify_mismatch_aux cfg nowV _ _ rfl _ rfl _ rfl hne

/-- Concrete settings used for witnesses: the defaults of
app/core/config.py (secret from TestingSettings). -/
def cfg0 : Settings :=
  { SECRET_KEY := "test-secret-key-not-for-production"
    ACCESS_TOKEN_EXPIRE_MINUTES := 30
    REFRESH_TOKEN_EXPIRE_DAYS := 7
    PASSWORD_MIN_LENGTH := 8
    PASSWORD_REQUIRE_UPPERCASE := true
    PASSWORD_REQUIRE_LOWERCASE := true
    PASSWORD_REQUIRE_NUMBERS := true
    PASSWORD_REQUIRE_SPECIAL := true
    MAX_LOGIN_ATTEMPTS := 5
    LOCKOUT_DURATION_MINUTES := 30 }

/-- Witness for C3 at kinds access vs refresh. -/
theorem token_kind_mismatch_witness :
    verify_token cfg0 0 (.valid (mkTokenOfKind cfg0 .access 0 "42" "j")) (kindName .refresh) =
      .ok none ∧
    verify_tokenE cfg0 0 (.valid (mkTokenOfKind cfg0 .access 0 "42" "j")) (kindName .refresh) =
      .error .kindMismatch :=
  ⟨(token_kind_mismatch cfg0 .access .refresh 0 0 "42" "j" (by decide)).1,
   (token_kind_mismatch cfg0 .access .refresh 0 0 "42" "j" (by decide)).2 (by decide)⟩

/-- C5: the claim that verify_token never raises is contradicted by the
code: on a token validly signed with the configured secret whose exp claim
lies beyond the range of datetime.fromtimestamp, the expiry re-check
raises OverflowError, which the `except jwt.PyJWTError` clause does not
catch. -/
theorem verify_token_raises_on_out_of_range_exp :
    verify_token cfg0 1
      (.valid (create_access_token cfg0 0 "42" (some 1000000000000000000) [])) "access" =
      .raised "OverflowError" := by
  decide

theorem verify_success_aux (cfg : Settings) (now : Int) (t : Token) (tt : String)
    (hkey : t.key = cfg.SECRET_KEY) (e : Int) (hexp : dget t.claims "exp" = some (.n e))
    (hty : dget t.claims "type" = some (.s tt)) (hlt : now < e)
    (hrange : fromtimestamp_ok e = true) :
    verify_tokenE cfg now (.valid t) tt = .ok t.claims := by
  have hle : ¬(e ≤ now) := by omega
  have hgt : ¬(now > e) := by omega
  simp [verify_tokenE, jwt_decode, hkey, hexp, hty, hle, hrange, hgt]

/-- C4 (amended): the create/verify round trip returns the original
subject and the extra claims unchanged, provided the extra claims do not
override the reserved sub, type and exp claims and the expiry stays in the
representable datetime range; analogously, with no extra claims, for the
refresh, password-reset and email-verification creators. -/
theorem token_round_trip (cfg : Settings) (nowC nowV : Int) (subject jti : String)
    (extra : Claims)
    (hnd : (extra.map Prod.fst).Nodup)
    (hres : ∀ p ∈ extra, p.1 ≠ "sub" ∧ p.1 ≠ "type" ∧ p.1 ≠ "exp") :
    (nowV < nowC + cfg.ACCESS_TOKEN_EXPIRE_MINUTES * 60 →
     fromtimestamp_ok (nowC + cfg.ACCESS_TOKEN_EXPIRE_MINUTES * 60) = true →
     verify_tokenE cfg nowV (.valid (create_access_token cfg nowC subject none extra)) "access" =
       .ok (create_access_token cfg nowC subject none extra).claims ∧
     dget (create_access_token cfg nowC subject none extra).claims "sub" = some (.s subject) ∧
     ∀ p ∈ extra,
       dget (create_access_token cfg nowC subject none extra).claims p.1 = some p.2) ∧
    (nowV < nowC + cfg.REFRESH_TOKEN_EXPIRE_DAYS * 86400 →
     fromtimestamp_ok (nowC + cfg.REFRESH_TOKEN_EXPIRE_DAYS * 86400) = true →
     verify_tokenE cfg nowV (.valid (create_refresh_token cfg nowC subject none jti)) "refresh" =
       .ok (create_refresh_token cfg nowC subject none jti).claims ∧
     dget (create_refresh_token cfg nowC subject none jti).claims "sub" = some (.s subject)) ∧
    (nowV < nowC + 3600 → fromtimestamp_ok (nowC + 3600) = true →
     verify_tokenE cfg nowV (.valid (generate_password_reset_token cfg nowC subject))
       "password_reset" = .ok (generate_password_reset_token cfg nowC subject).claims ∧
     dget (generate_password_reset_token cfg nowC subject).claims "sub" = some (.s subject)) ∧
    (nowV < nowC + 604800 → fromtimestamp_ok (nowC + 604800) = true →
     verify_tokenE cfg nowV (.valid (generate_email_verification_token cfg nowC subject))
       "email_verification" = .ok (generate_email_verification_token cfg nowC subject).claims ∧
     dget (generate_email_verification_token cfg nowC subject).claims "sub" =
       some (.s subject)) := by
  have hclaims : (create_access_token cfg nowC subject none extra).claims =
      dupdate [("exp", .n (nowC + cfg.ACCESS_TOKEN_EXPIRE_MINUTES * 60)), ("sub", .s subject),
               ("type", .s "access"), ("iat", .n nowC)] extra := rfl
  refine ⟨fun hlt hrange => ?_, fun hlt hrange => ?_, fun hlt hrange => ?_,
          fun hlt hrange => ?_⟩
  · have hexp : dget (create_access_token cfg nowC subject none extra).claims "exp" =
        some (.n (nowC + cfg.ACCESS_TOKEN_EXPIRE_MINUTES * 60)) := by
      rw [hclaims, dget_dupdate_not_mem _ _ _ (fun p hp => (hres p hp).2.2)]
      rfl
    have hty : dget (create_access_token cfg nowC subject none extra).claims "type" =
        some (.s "access") := by
      rw [hclaims, dget_dupdate_not_mem _ _ _ (fun p hp => (hres p hp).2.1)]
      rfl
    have hsub : dget (create_access_token cfg nowC subject none extra).claims "sub" =
        some (.s subject) := by
      rw [hclaims, dget_dupdate_not_mem _ _ _ (fun p hp => (hres p hp).1)]
      rfl
    refine ⟨verify_success_aux cfg nowV _ _ rfl _ hexp hty hlt hrange, hsub, ?_⟩
    intro p hp
    rw [hclaims]
    exact dget_dupdate_mem extra _ p.1 p.2 hnd (by simpa using hp)
  · exact ⟨verify_success_aux cfg nowV _ _ rfl _ rfl rfl hlt hrange, rfl⟩
  · exact ⟨verify_success_aux cfg nowV _ _ rfl _ rfl rfl hlt hrange, rfl⟩
  · exact ⟨verify_success_aux cfg nowV _ _ rfl _ rfl rfl hlt hrange, rfl⟩

/-- Counterexample for C4 as stated: extra claims may override the
reserved payload entries through `to_encode.update(additional_claims)`.
Overriding sub makes a token that verifies but carries a different
subject; overriding type breaks verification with a kind mismatch;
overriding exp with a string is rejected at decode; and a token whose
expiry exceeds the datetime range makes verification raise instead of
returning. -/
theorem token_round_trip_counterexample :
    (verify_tokenE cfg0 1 (.valid (create_access_token cfg0 0 "42" none [("sub", JVal.s "99")]))
       "access" = .ok (create_access_token cfg0 0 "42" none [("sub", JVal.s "99")]).claims ∧
     dget (create_access_token cfg0 0 "42" none [("sub", JVal.s "99")]).claims "sub" =
       some (.s "99")) ∧
    verify_tokenE cfg0 1 (.valid (create_access_token cfg0 0 "42" none [("type", JVal.s "refresh")]))
      "access" = .error .kindMismatch ∧
    verify_tokenE cfg0 1 (.valid (create_access_token cfg0 0 "42" none [("exp", JVal.s "zzz")]))
      "access" = .error .invalidSignature ∧
    verify_token cfg0 1 (.valid (create_access_token cfg0 0 "42" (some 1000000000000000000) []))
      "access" = .raised "OverflowError" := by
  refine ⟨⟨?_, ?_⟩, ?_, ?_, ?_⟩ <;> rfl

/-- Witness for C4 at a concrete extra-claims dict. -/
theorem token_round_trip_witness :
    verify_tokenE cfg0 1
      (.valid (create_access_token cfg0 0 "42" none [("email", JVal.s "a@x.com")])) "access" =
      .ok (create_access_token cfg0 0 "42" none [("email", JVal.s "a@x.com")]).claims ∧
    dget (create_access_token cfg0 0 "42" none [("email", JVal.s "a@x.com")]).claims "sub" =
      some (.s "42") ∧
    ∀ p ∈ [("email", JVal.s "a@x.com")],
      dget (create_access_token cfg0 0 "42" none [("email", JVal.s "a@x.com")]).claims p.1 =
        some p.2 :=
  (token_round_trip cfg0 0 1 "42" "j" [("email", .s "a@x.com")]
    (by decide) (by decide)).1 (by decide) (by decide)

/-- C8: request_password_reset returns the same generic success for every
input: unknown email, inactive user and active user are indistinguishable
from the returned value. -/
theorem password_reset_request_uniform (cfg : Settings) (now : Int) (email : String)
    (users : List User) (resets : List PasswordReset) (newId : Nat)
    (ip_address user_agent : Option String) :
    (request_password_reset cfg now email users resets newId ip_address user_agent).1 = true := by
  unfold request_password_reset
  cases get_user_by_email users email with
  | none => rfl
  | some u =>
    dsimp only
    split
    · rfl
    · rfl

/-- C10: logout_user always reports success; with logout_all_devices false
and no token supplied it deactivates every session of the user, with the
same effect on the session set as logout-all-devices; a supplied token
matching no session of the user leaves every session unchanged. -/
theorem logout_user_semantics :
    (∀ (uid : Nat) (rt : Option TokenInput) (all : Bool) (ss : List UserSession),
       (logout_user uid rt all ss).1 = true) ∧
    (∀ (uid : Nat) (ss : List UserSession),
       (logout_user uid none false ss).2 = (logout_user uid none true ss).2) ∧
    (∀ (uid : Nat) (t : TokenInput) (ss : List UserSession),
       (∀ s ∈ ss, ¬(s.user_id = uid ∧ token_matches t s.refresh_token = true)) →
       (logout_user uid (some t) false ss).2 = ss) := by
  refine ⟨?_, ?_, ?_⟩
  · intro uid rt all ss
    unfold logout_user
    cases all
    · cases rt <;> rfl
    · rfl
  · intro uid ss
    rfl
  · intro uid t ss h
    show ss.map (fun s =>
      if s.user_id == uid && token_matches t s.refresh_token then
        { s with is_active := false } else s) = ss
    induction ss with
    | nil => rfl
    | cons s rest ih =>
      have hs := h s (List.mem_cons_self _ _)
      have hcond : ¬((s.user_id == uid && token_matches t s.refresh_token) = true) := by
        intro hc
        simp only [Bool.and_eq_true, beq_iff_eq] at hc
        exact hs hc
      rw [List.map_cons, if_neg hcond, ih (fun q hq => h q (List.mem_cons_of_mem _ hq))]

/-- Fixtures for the witnesses: the testing configuration, an active
unlocked user one failed attempt below the threshold, a locked user, a
stored session. -/
def userA : User :=
  { id := 7, email := "a@x.com", password_hash := get_password_hash "Str0ng!Pw",
    role := "user", is_active := true, is_verified := true, is_locked := false,
    failed_login_attempts := 4, locked_until := none, last_login := none,
    password_changed_at := 0, updated_at := 0 }

/-- The same account after the lockout transition: locked until t = 1800. -/
def userL : User :=
  { userA with is_locked := true, locked_until := some 1800, failed_login_attempts := 5 }

/-- A stored refresh token and its session, owned by userA. -/
def tok0 : Token := create_refresh_token cfg0 0 "7" none "jti0"

def sess0 : UserSession :=
  { id := 1, user_id := 7, refresh_token := tok0, created_at := 0,
    expires_at := 604800, last_used_at := 0, is_active := true }

/-- Witness for C10 at a token matching no session of the user. -/
theorem logout_user_semantics_witness :
    (logout_user 1 (some (TokenInput.malformed "zzz")) false [sess0]).2 = [sess0] :=
  logout_user_semantics.2.2 1 (TokenInput.malformed "zzz") [sess0] (by decide)

/-- C6: whenever authenticate_user reports no error the stored row has
failed_login_attempts 0, and likewise after an admin unlock_user. -/
theorem auth_success_resets_attempts :
    (∀ (cfg : Settings) (now : Int) (pw : String) (found : Option User) (u' : User),
       (authenticate_user cfg now pw found).error = none →
       (authenticate_user cfg now pw found).db_user = some u' →
       u'.failed_login_attempts = 0) ∧
    (∀ (now : Int) (found : Option User) (u' : User),
       (unlock_user now found).2 = some u' → u'.failed_login_attempts = 0) := by
  constructor
  · intro cfg now pw found u' herr hdb
    cases found with
    | none => simp [authenticate_user] at herr
    | some u =>
      by_cases c1 : (u.is_locked && before_lockout_expiry u.locked_until now) = true
      · simp [authenticate_user, c1] at herr
      by_cases c2 : (u.is_locked && u.locked_until.isNone) = true
      · simp [authenticate_user, c1, c2] at herr
      by_cases c3 : (!u.is_active) = true
      · simp [authenticate_user, c1, c2, c3] at herr
      by_cases c4 : (!(verify_password pw u.password_hash)) = true
      · simp [authenticate_user, c1, c2, c3, c4] at herr
      simp only [authenticate_user, c1, c2, c3, c4, if_false, Bool.false_eq_true,
        Option.some.injEq] at hdb
      subst hdb
      split
      · rfl
      · rfl
  · intro now found u' hdb
    cases found with
    | none => simp [unlock_user] at hdb
    | some u =>
      simp only [unlock_user, Option.some.injEq] at hdb
      subst hdb
      rfl

/-- Witness for C6: a correct-password login on userA (counter 4). -/
theorem auth_success_resets_attempts_witness :
    ({ userA with failed_login_attempts := 0, last_login := some 0 } : User).failed_login_attempts
      = 0 :=
  auth_success_resets_attempts.1 cfg0 0 "Str0ng!Pw" (some userA)
    ({ userA with failed_login_attempts := 0, last_login := some 0 }) (by rfl) (by rfl)

/-- One counter per configured password rule, written from the policy:
minimum length, uppercase, lowercase, digit, special character. -/
def ruleFailCount (cfg : Settings) (p : String) : Nat :=
  (if (p.length : Int) < cfg.PASSWORD_MIN_LENGTH then 1 else 0) +
  (if cfg.PASSWORD_REQUIRE_UPPERCASE && !(py_any p Char.isUpper) then 1 else 0) +
  (if cfg.PASSWORD_REQUIRE_LOWERCASE && !(py_any p Char.isLower) then 1 else 0) +
  (if cfg.PASSWORD_REQUIRE_NUMBERS && !(py_any p Char.isDigit) then 1 else 0) +
  (if cfg.PASSWORD_REQUIRE_SPECIAL && !(py_any p (fun c => py_char_in c special_characters)) then 1
   else 0)

/-- C9: validate_password_strength is valid iff the violation list is
empty, reports exactly one violation per failed configured rule, scores
100 minus 20 per violation floored at 0, and the reset path rejects,
leaving every user row unchanged, whenever the password is invalid. -/
theorem password_policy_spec (cfg : Settings) (p : String) :
    ((validate_password_strength cfg p).is_valid = true ↔
      (validate_password_strength cfg p).errors = []) ∧
    (validate_password_strength cfg p).errors.length = ruleFailCount cfg p ∧
    (validate_password_strength cfg p).strength_score =
      max 0 (100 - ((validate_password_strength cfg p).errors.length : Int) * 20) ∧
    ∀ (now : Int) (tok : TokenInput) (users : List User) (resets : List PasswordReset)
      (ss : List UserSession),
      (validate_password_strength cfg p).is_valid = false →
      (reset_password cfg now tok p users resets ss).success = false ∧
      (reset_password cfg now tok p users resets ss).users = users := by
  refine ⟨?_, ?_, rfl, ?_⟩
  · simp only [validate_password_strength, beq_iff_eq, List.length_eq_zero]
  · simp only [validate_password_strength, ruleFailCount]
    split_ifs <;> rfl
  · intro now tok users resets ss hinv
    unfold reset_password
    cases verify_password_reset_token cfg now tok with
    | none => exact ⟨rfl, rfl⟩
    | some email =>
      dsimp only
      split
      · exact ⟨rfl, rfl⟩
      cases resets.find? (fun r => token_matches tok r.token && !r.is_used) with
      | none => exact ⟨rfl, rfl⟩
      | some pr =>
        dsimp only
        split
        · exact ⟨rfl, rfl⟩
        cases get_user_by_email users email with
        | none => exact ⟨rfl, rfl⟩
        | some user =>
          dsimp only
          rw [if_pos]
          · exact ⟨rfl, rfl⟩
          · rw [hinv]
            rfl

/-- Witness for C9: the weak password abc is rejected by the reset path. -/
theorem password_policy_spec_witness :
    (reset_password cfg0 0 (TokenInput.malformed "x") "abc" [] [] []).success = false ∧
    (reset_password cfg0 0 (TokenInput.malformed "x") "abc" [] [] []).users = [] :=
  (password_policy_spec cfg0 "abc").2.2.2 0 (TokenInput.malformed "x") [] [] [] (by decide)

/-- C1: the lockout state machine of authenticate_user. A failed attempt
that brings the counter to MAX_LOGIN_ATTEMPTS locks the row with
locked_until = now + LOCKOUT_DURATION_MINUTES (in seconds); while locked
with locked_until in the future every call fails with the locked error and
writes nothing, whatever the password; from locked_until on, a
correct-password login on an active account succeeds and unlocks the row. -/
theorem account_lockout_machine :
    (∀ (cfg : Settings) (now : Int) (pw : String) (u : User),
       u.is_locked = false → u.is_active = true →
       verify_password pw u.password_hash = false →
       u.failed_login_attempts + 1 ≥ cfg.MAX_LOGIN_ATTEMPTS →
       (authenticate_user cfg now pw (some u)).error = some "Invalid email or password" ∧
       (authenticate_user cfg now pw (some u)).db_user =
         some { u with failed_login_attempts := u.failed_login_attempts + 1,
                       is_locked := true,
                       locked_until := some (now + cfg.LOCKOUT_DURATION_MINUTES * 60) }) ∧
    (∀ (cfg : Settings) (now : Int) (pw : String) (u : User) (t : Int),
       u.is_locked = true → u.locked_until = some t → now < t →
       (authenticate_user cfg now pw (some u)).user = none ∧
       (authenticate_user cfg now pw (some u)).error =
         some ("Account is locked. Try again in " ++
           toString ((t - now).toNat % 86400 / 60) ++ " minutes") ∧
       (authenticate_user cfg now pw (some u)).db_user = some u) ∧
    (∀ (cfg : Settings) (now : Int) (pw : String) (u : User) (t : Int),
       u.is_locked = true → u.locked_until = some t → t ≤ now → u.is_active = true →
       verify_password pw u.password_hash = true →
       (authenticate_user cfg now pw (some u)).error = none ∧
       (authenticate_user cfg now pw (some u)).db_user =
         some { u with failed_login_attempts := 0, is_locked := false,
                       locked_until := none, last_login := some now }) := by
  refine ⟨?_, ?_, ?_⟩
  · intro cfg now pw u hlk hact hpw hthr
    simp [authenticate_user, hlk, hact, hpw, hthr]
  · intro cfg now pw u t hlk hu hnow
    simp [authenticate_user, hlk, hu, before_lockout_expiry, hnow]
  · intro cfg now pw u t hlk hu hle hact hpw
    have hnlt : ¬(now < t) := by omega
    have hge : now ≥ t := by omega
    simp [authenticate_user, hlk, hu, before_lockout_expiry, hnlt, hact, hpw,
      after_lockout_expiry, hge]

/-- Witness for C1: userA reaches the threshold at time 0 and becomes
userL, which rejects the correct password at time 60 and accepts it again
at time 1800. -/
theorem account_lockout_machine_witness :
    ((authenticate_user cfg0 0 "bad" (some userA)).error = some "Invalid email or password" ∧
     (authenticate_user cfg0 0 "bad" (some userA)).db_user =
       some { userA with failed_login_attempts := userA.failed_login_attempts + 1,
                         is_locked := true,
                         locked_until := some (0 + cfg0.LOCKOUT_DURATION_MINUTES * 60) }) ∧
    ((authenticate_user cfg0 60 "Str0ng!Pw" (some userL)).user = none ∧
     (authenticate_user cfg0 60 "Str0ng!Pw" (some userL)).error =
       some ("Account is locked. Try again in " ++
         toString ((1800 - (60 : Int)).toNat % 86400 / 60) ++ " minutes") ∧
     (authenticate_user cfg0 60 "Str0ng!Pw" (some userL)).db_user = some userL) ∧
    ((authenticate_user cfg0 1800 "Str0ng!Pw" (some userL)).error = none ∧
     (authenticate_user cfg0 1800 "Str0ng!Pw" (some userL)).db_user =
       some { userL with failed_login_attempts := 0, is_locked := false,
                         locked_until := none, last_login := some 1800 }) :=
  ⟨account_lockout_machine.1 cfg0 0 "bad" userA rfl rfl (by decide) (by decide),
   account_lockout_machine.2.1 cfg0 60 "Str0ng!Pw" userL 1800 rfl rfl (by decide),
   account_lockout_machine.2.2 cfg0 1800 "Str0ng!Pw" userL 1800 rfl rfl (by decide) rfl
     (by decide)⟩

/-- The state invariant of C7: an unlocked row carries no lockout
timestamp. -/
def lockInv (u : User) : Prop := u.is_locked = false → u.locked_until = none

/-- C7: every modelled operation that writes user rows preserves lockInv,
and a freshly created user satisfies it; in particular no operation sets
locked_until without setting is_locked. -/
theorem lock_invariant_preserved :
    (∀ (cfg : Settings) (now : Int) (existing : Option User) (newId : Nat)
       (email pw role : String) (act : Bool) (u : User),
       create_user cfg now existing newId email pw role act = .ok u → lockInv u) ∧
    (∀ (cfg : Settings) (now : Int) (pw : String) (u u' : User), lockInv u →
       (authenticate_user cfg now pw (some u)).db_user = some u' → lockInv u') ∧
    (∀ (now : Int) (u : User) (ss : List UserSession) (b : Bool) (u' : Option User)
       (ss2 : List UserSession), lock_user now (some u) ss = (b, u', ss2) →
       ∀ u2, u' = some u2 → lockInv u2) ∧
    (∀ (now : Int) (u u' : User), (unlock_user now (some u)).2 = some u' → lockInv u') ∧
    (∀ (cfg : Settings) (now : Int) (u : User) (cur new : String) (ss : List UserSession)
       (out : Bool × Option User × List UserSession), lockInv u →
       change_password cfg now (some u) cur new ss = .ok out →
       ∀ u2, out.2.1 = some u2 → lockInv u2) ∧
    (∀ (cfg : Settings) (now : Int) (tok : TokenInput) (np : String) (users : List User)
       (resets : List PasswordReset) (ss : List UserSession),
       (∀ x ∈ users, lockInv x) →
       ∀ y ∈ (reset_password cfg now tok np users resets ss).users, lockInv y) := by
  refine ⟨?_, ?_, ?_, ?_, ?_, ?_⟩
  · intro cfg now existing newId email pw role act u h
    cases existing with
    | some _ => exact absurd h (by simp [create_user])
    | none =>
      by_cases hv : (!(validate_password_strength cfg pw).is_valid) = true
      · simp [create_user, hv] at h
      · simp only [create_user, hv, if_false, Bool.false_eq_true, Except.ok.injEq] at h
        subst h
        intro _
        rfl
  · intro cfg now pw u u' hinv hdb
    by_cases c1 : (u.is_locked && before_lockout_expiry u.locked_until now) = true
    · simp only [authenticate_user, c1, if_true, Option.some.injEq] at hdb
      subst hdb
      exact hinv
    by_cases c2 : (u.is_locked && u.locked_until.isNone) = true
    · simp only [authenticate_user, c1, c2, if_true, if_false, Bool.false_eq_true,
        Option.some.injEq] at hdb
      subst hdb
      exact hinv
    by_cases c3 : (!u.is_active) = true
    · simp only [authenticate_user, c1, c2, c3, if_true, if_false, Bool.false_eq_true,
        Option.some.injEq] at hdb
      subst hdb
      exact hinv
    by_cases c4 : (!(verify_password pw u.password_hash)) = true
    · simp only [authenticate_user, c1, c2, c3, c4, if_true, if_false, Bool.false_eq_true,
        Option.some.injEq] at hdb
      subst hdb
      split
      · intro hc
        cases hc
      · exact fun _ => hinv (by assumption)
    · simp only [authenticate_user, c1, c2, c3, c4, if_false, Bool.false_eq_true,
        Option.some.injEq] at hdb
      subst hdb
      split
      · intro _
        rfl
      · intro h0
        exact hinv h0
  · intro now u ss b u' ss2 h u2 hu2
    simp only [lock_user, Prod.mk.injEq] at h
    rw [← h.2.1] at hu2
    cases hu2
    intro hc
    cases hc
  · intro now u u' h
    simp only [unlock_user, Option.some.injEq] at h
    subst h
    intro _
    rfl
  · intro cfg now u cur new ss out hinv h u2 hu2
    by_cases hc : (!(verify_password cur u.password_hash)) = true
    · simp [change_password, hc] at h
    by_cases hv : (!(validate_password_strength cfg new).is_valid) = true
    · simp [change_password, hc, hv] at h
    simp only [change_password, hc, hv, if_false, Bool.false_eq_true, PyResult.ok.injEq] at h
    rw [← h] at hu2
    simp only [Option.some.injEq] at hu2
    subst hu2
    exact hinv
  · intro cfg now tok np users resets ss hall y hy
    unfold reset_password at hy
    cases hv : verify_password_reset_token cfg now tok with
    | none =>
      rw [hv] at hy
      exact hall y hy
    | some email =>
      rw [hv] at hy
      dsimp only at hy
      by_cases he : email = ""
      · rw [if_pos he] at hy
        exact hall y hy
      rw [if_neg he] at hy
      cases hf : resets.find? (fun r => token_matches tok r.token && !r.is_used) with
      | none =>
        rw [hf] at hy
        exact hall y hy
      | some pr =>
        rw [hf] at hy
        dsimp only at hy
        by_cases hu : (!(!pr.is_used && !decide (now > pr.expires_at))) = true
        · rw [if_pos hu] at hy
          exact hall y hy
        rw [if_neg hu] at hy
        cases hg : get_user_by_email users email with
        | none =>
          rw [hg] at hy
          exact hall y hy
        | some user =>
          rw [hg] at hy
          dsimp only at hy
          by_cases hval : (!(validate_password_strength cfg np).is_valid) = true
          · rw [if_pos hval] at hy
            exact hall y hy
          rw [if_neg hval] at hy
          dsimp only at hy
          obtain ⟨x, hx, rfl⟩ := List.mem_map.mp hy
          by_cases hid : (x.id == user.id) = true
          · rw [if_pos hid]
            exact fun h0 => hall x hx h0
          · rw [if_neg hid]
            exact hall x hx

/-- Witness for C7: the user created by create_user satisfies lockInv. -/
theorem lock_invariant_preserved_witness :
    lockInv { id := 9, email := py_lower "b@x.com",
              password_hash := get_password_hash "Str0ng!Pw",
              role := "user", is_active := true, is_verified := false, is_locked := false,
              failed_login_attempts := 0, locked_until := none, last_login := none,
              password_changed_at := 0, updated_at := 0 } :=
  lock_invariant_preserved.1 cfg0 0 none 9 "b@x.com" "Str0ng!Pw" "user" true _
    (by simp only [create_user]; rw [if_neg (by decide)])

/-- Every session bearing this stored refresh token is inactive. -/
def revokedIn (sessions : List UserSession) (tk : Token) : Prop :=
  ∀ s ∈ sessions, s.refresh_token = tk → s.is_active = false

/-- Every session of this user is inactive. -/
def allRevokedFor (sessions : List UserSession) (uid : Nat) : Prop :=
  ∀ s ∈ sessions, s.user_id = uid → s.is_active = false

/-- No session inactive before the operation is active after it. -/
def noReactivation (pre post : List UserSession) : Prop :=
  ∀ s ∈ pre, s.is_active = false → ∀ s2 ∈ post, s2.id = s.id → s2.is_active = false

/-- The access token a refresh_access_token call handed out, if any. -/
def mintedToken : PyResult RefreshOutcome → Option Token
  | .ok o => o.access_token
  | .raised _ => none

/-- The modelled operations that write the user_sessions table, with the
arguments each one takes besides the session list. -/
inductive SessionOp where
  | logout (uid : Nat) (rt : Option TokenInput) (all : Bool)
  | changePassword (cfg : Settings) (now : Int) (found : Option User) (cur new : String)
  | resetPassword (cfg : Settings) (now : Int) (tok : TokenInput) (np : String)
      (users : List User) (resets : List PasswordReset)
  | lockUser (now : Int) (found : Option User)
  | revokeSession (uid sid : Nat)
  | cleanupExpired (now : Int)
  | refreshAccess (cfg : Settings) (now : Int) (tok : TokenInput) (users : List User)
  | createSession (cfg : Settings) (now : Int) (u : User) (remember : Bool) (jti : String)
      (newId : Nat)

/-- The session list each operation leaves behind (unchanged when the call
raised). -/
def applySessionOp (op : SessionOp) (ss : List UserSession) : List UserSession :=
  match op with
  | .logout uid rt all => (logout_user uid rt all ss).2
  | .changePassword cfg now found cur new =>
    match change_password cfg now found cur new ss with
    | .ok r => r.2.2
    | .raised _ => ss
  | .resetPassword cfg now tok np users resets =>
    (reset_password cfg now tok np users resets ss).sessions
  | .lockUser now found => (lock_user now found ss).2.2
  | .revokeSession uid sid => (revoke_session uid sid ss).2
  | .cleanupExpired now => (cleanup_expired_sessions now ss).2
  | .refreshAccess cfg now tok users =>
    match refresh_access_token cfg now tok ss users with
    | .ok o => o.sessions
    | .raised _ => ss
  | .createSession cfg now u remember jti newId =>
    (create_user_session cfg now u remember jti newId ss).2

/-- The fresh row ids an operation inserts. -/
def opNewIds : SessionOp → List Nat
  | .createSession _ _ _ _ _ newId => [newId]
  | _ => []

theorem noReactivation_map (f : UserSession → UserSession) (ss : List UserSession)
    (hid : ∀ s, (f s).id = s.id)
    (hact : ∀ s, s.is_active = false → (f s).is_active = false)
    (hnd : (ss.map (fun s => s.id)).Nodup) :
    noReactivation ss (ss.map f) := by
  intro s hs hsa s2 hs2 hid2
  obtain ⟨x, hx, rfl⟩ := List.mem_map.mp hs2
  have hxs : x = s := by
    apply List.inj_on_of_nodup_map hnd hx hs
    rw [hid x] at hid2
    exact hid2
  subst hxs
  exact hact x hsa

theorem noReactivation_self (ss : List UserSession)
    (hnd : (ss.map (fun s => s.id)).Nodup) : noReactivation ss ss := by
  intro s hs hsa s2 hs2 hid2
  have hxs : s2 = s := List.inj_on_of_nodup_map hnd hs2 hs hid2
  subst hxs
  exact hsa

theorem allRevokedFor_deactivate (uid : Nat) (ss : List UserSession) :
    allRevokedFor (deactivate_for_user uid ss) uid := by
  intro s2 hs2 huid
  obtain ⟨s, hs, rfl⟩ := List.mem_map.mp hs2
  by_cases h : (s.user_id == uid) = true
  · rw [if_pos h]
  · rw [if_neg h] at huid
    exact absurd (by simpa using huid) h

theorem revokedIn_deactivate (uid : Nat) (tk : Token) (ss : List UserSession)
    (hown : ∀ s ∈ ss, s.refresh_token = tk → s.user_id = uid) :
    revokedIn (deactivate_for_user uid ss) tk := by
  intro s2 hs2 htok
  obtain ⟨s, hs, rfl⟩ := List.mem_map.mp hs2
  by_cases h : (s.user_id == uid) = true
  · rw [if_pos h]
  · rw [if_neg h] at htok ⊢
    exact absurd (by simpa using hown s hs htok) h

theorem refresh_sessions_shape (cfg : Settings) (now : Int) (tok : TokenInput)
    (ss : List UserSession) (users : List User) :
    ∀ o, refresh_access_token cfg now tok ss users = .ok o →
      o.sessions = ss ∨
      ∃ sid, o.sessions =
        ss.map (fun s => if s.id == sid then { s with last_used_at := now } else s) := by
  intro o h
  unfold refresh_access_token at h
  cases hv : verify_token cfg now tok "refresh" with
  | raised m => rw [hv] at h; cases h
  | ok p =>
    rw [hv] at h
    cases p with
    | none =>
      cases h
      left
      rfl
    | some payload =>
      dsimp only at h
      cases hsub : dget payload "sub" with
      | none =>
        rw [hsub] at h
        cases h
        left
        rfl
      | some jv =>
        rw [hsub] at h
        cases jv with
        | n v => cases h
        | s user_id =>
          dsimp only at h
          by_cases he : user_id = ""
          · rw [if_pos he] at h
            cases h
            left
            rfl
          rw [if_neg he] at h
          cases hf : ss.find? (fun s => token_matches tok s.refresh_token && s.is_active) with
          | none =>
            rw [hf] at h
            cases h
            left
            rfl
          | some session =>
            rw [hf] at h
            dsimp only at h
            by_cases hexp : now > session.expires_at
            · rw [if_pos hexp] at h
              cases h
              left
              rfl
            rw [if_neg hexp] at h
            cases hn : user_id.toNat? with
            | none => rw [hn] at h; cases h
            | some uid =>
              rw [hn] at h
              dsimp only at h
              cases hg : get_user_by_id users uid with
              | none =>
                rw [hg] at h
                cases h
                left
                rfl
              | some user =>
                rw [hg] at h
                dsimp only at h
                by_cases ha : (!user.is_active) = true
                · rw [if_pos ha] at h
                  cases h
                  left
                  rfl
                · rw [if_neg ha] at h
                  cases h
                  right
                  exact ⟨session.id, rfl⟩

theorem noReactivation_deactivate (uid : Nat) (ss : List UserSession)
    (hnd : (ss.map (fun s => s.id)).Nodup) :
    noReactivation ss (deactivate_for_user uid ss) := by
  apply noReactivation_map _ _ _ _ hnd
  · intro s
    dsimp only
    split
    · rfl
    · rfl
  · intro s hsa
    dsimp only
    split
    · rfl
    · exact hsa

theorem noReactivation_append (ss tail : List UserSession)
    (hnd : (ss.map (fun s => s.id)).Nodup)
    (hfresh : ∀ s2 ∈ tail, ∀ s ∈ ss, s.id ≠ s2.id) :
    noReactivation ss (ss ++ tail) := by
  intro s hs hsa s2 hs2 hid2
  rcases List.mem_append.mp hs2 with h2 | h2
  · exact noReactivation_self ss hnd s hs hsa s2 h2 hid2
  · exact absurd hid2.symm (hfresh s2 h2 s hs)

theorem change_password_post_sessions (cfg : Settings) (now : Int) (found : Option User)
    (cur new : String) (ss : List UserSession) :
    applySessionOp (.changePassword cfg now found cur new) ss = ss ∨
    ∃ uid, applySessionOp (.changePassword cfg now found cur new) ss =
      deactivate_for_user uid ss := by
  unfold applySessionOp
  dsimp only
  cases found with
  | none => exact Or.inl rfl
  | some u =>
    by_cases hc : (!(verify_password cur u.password_hash)) = true
    · rw [show change_password cfg now (some u) cur new ss =
        PyResult.raised "ValueError: Current password is incorrect" from by
          simp [change_password, hc]]
      exact Or.inl rfl
    · by_cases hv2 : (!(validate_password_strength cfg new).is_valid) = true
      · rw [show change_password cfg now (some u) cur new ss =
          PyResult.raised ("ValueError: Password validation failed: " ++
            String.intercalate ", " (validate_password_strength cfg new).errors) from by
            simp [change_password, hc, hv2]]
        exact Or.inl rfl
      · refine Or.inr ⟨u.id, ?_⟩
        rw [show change_password cfg now (some u) cur new ss =
          PyResult.ok (true,
            some { u with password_hash := get_password_hash new,
                          password_changed_at := now, updated_at := now },
            deactivate_for_user u.id ss) from by simp [change_password, hc, hv2]]

theorem reset_password_post_sessions (cfg : Settings) (now : Int) (tok : TokenInput)
    (np : String) (users : List User) (resets : List PasswordReset) (ss : List UserSession) :
    (reset_password cfg now tok np users resets ss).sessions = ss ∨
    ∃ uid, (reset_password cfg now tok np users resets ss).sessions =
      deactivate_for_user uid ss := by
  unfold reset_password
  cases hv : verify_password_reset_token cfg now tok with
  | none => exact Or.inl rfl
  | some email =>
    dsimp only
    by_cases he : email = ""
    · rw [if_pos he]
      exact Or.inl rfl
    rw [if_neg he]
    cases hf : resets.find? (fun r => token_matches tok r.token && !r.is_used) with
    | none => exact Or.inl rfl
    | some pr =>
      dsimp only
      by_cases hu2 : (!(!pr.is_used && !decide (now > pr.expires_at))) = true
      · rw [if_pos hu2]
        exact Or.inl rfl
      rw [if_neg hu2]
      cases hg : get_user_by_email users email with
      | none => exact Or.inl rfl
      | some user =>
        dsimp only
        by_cases hvp : (!(validate_password_strength cfg np).is_valid) = true
        · rw [if_pos hvp]
          exact Or.inl rfl
        · rw [if_neg hvp]
          exact Or.inr ⟨user.id, rfl⟩

/-- C2: revocation of a refresh token is permanent. Logout presenting the
token, logout-all-devices, logout with no token, a completed password
change and a completed password reset all leave the target sessions
inactive; a token all of whose sessions are inactive makes
refresh_access_token fail without minting an access token or touching the
session list; and no modelled session-writing operation ever turns an
inactive session active again. -/
theorem refresh_revocation_permanent :
    (∀ (uid : Nat) (tk : Token) (ss : List UserSession),
       (∀ s ∈ ss, s.refresh_token = tk → s.user_id = uid) →
       revokedIn (logout_user uid (some (.valid tk)) false ss).2 tk) ∧
    (∀ (uid : Nat) (tk : Token) (rt : Option TokenInput) (ss : List UserSession),
       (∀ s ∈ ss, s.refresh_token = tk → s.user_id = uid) →
       revokedIn (logout_user uid rt true ss).2 tk) ∧
    (∀ (uid : Nat) (tk : Token) (ss : List UserSession),
       (∀ s ∈ ss, s.refresh_token = tk → s.user_id = uid) →
       revokedIn (logout_user uid none false ss).2 tk) ∧
    (∀ (cfg : Settings) (now : Int) (u : User) (cur new : String) (ss : List UserSession)
       (out : Bool × Option User × List UserSession),
       change_password cfg now (some u) cur new ss = .ok out →
       allRevokedFor out.2.2 u.id) ∧
    (∀ (cfg : Settings) (now : Int) (tok : TokenInput) (np : String) (users : List User)
       (resets : List PasswordReset) (ss : List UserSession) (email : String) (u : User),
       verify_password_reset_token cfg now tok = some email →
       get_user_by_email users email = some u →
       (reset_password cfg now tok np users resets ss).success = true →
       allRevokedFor (reset_password cfg now tok np users resets ss).sessions u.id) ∧
    (∀ (ss : List UserSession) (uid : Nat) (tk : Token),
       (∀ s ∈ ss, s.refresh_token = tk → s.user_id = uid) →
       allRevokedFor ss uid → revokedIn ss tk) ∧
    (∀ (cfg : Settings) (now : Int) (tk : Token) (ss : List UserSession) (users : List User),
       revokedIn ss tk →
       mintedToken (refresh_access_token cfg now (.valid tk) ss users) = none ∧
       ∀ o, refresh_access_token cfg now (.valid tk) ss users = .ok o → o.sessions = ss) ∧
    (∀ (op : SessionOp) (ss : List UserSession),
       (ss.map (fun s => s.id)).Nodup →
       (∀ i ∈ opNewIds op, ∀ s ∈ ss, s.id ≠ i) →
       noReactivation ss (applySessionOp op ss)) := by
  refine ⟨?_, ?_, ?_, ?_, ?_, ?_, ?_, ?_⟩
  · intro uid tk ss hown
    show revokedIn (ss.map fun s =>
      if s.user_id == uid && token_matches (.valid tk) s.refresh_token then
        { s with is_active := false } else s) tk
    intro s2 hs2 htok
    obtain ⟨s, hs, rfl⟩ := List.mem_map.mp hs2
    by_cases h : (s.user_id == uid && token_matches (.valid tk) s.refresh_token) = true
    · rw [if_pos h]
    · rw [if_neg h] at htok ⊢
      refine absurd ?_ h
      simp only [Bool.and_eq_true, beq_iff_eq, token_matches]
      exact ⟨hown s hs htok, by simp [htok]⟩
  · intro uid tk rt ss hown
    cases rt with
    | none => exact revokedIn_deactivate uid tk ss hown
    | some t => exact revokedIn_deactivate uid tk ss hown
  · intro uid tk ss hown
    exact revokedIn_deactivate uid tk ss hown
  · intro cfg now u cur new ss out h
    by_cases hc : (!(verify_password cur u.password_hash)) = true
    · simp [change_password, hc] at h
    by_cases hv2 : (!(validate_password_strength cfg new).is_valid) = true
    · simp [change_password, hc, hv2] at h
    simp only [change_password, hc, hv2, if_false, Bool.false_eq_true,
      PyResult.ok.injEq] at h
    rw [← h]
    exact allRevokedFor_deactivate u.id ss
  · intro cfg now tok np users resets ss email u hve hu hsucc
    unfold reset_password at hsucc ⊢
    rw [hve] at hsucc ⊢
    dsimp only at hsucc ⊢
    by_cases he : email = ""
    · rw [if_pos he] at hsucc
      simp at hsucc
    rw [if_neg he] at hsucc ⊢
    cases hf : resets.find? (fun r => token_matches tok r.token && !r.is_used) with
    | none =>
      rw [hf] at hsucc
      simp at hsucc
    | some pr =>
      rw [hf] at hsucc
      dsimp only at hsucc ⊢
      by_cases hu2 : (!(!pr.is_used && !decide (now > pr.expires_at))) = true
      · rw [if_pos hu2] at hsucc
        simp at hsucc
      rw [if_neg hu2] at hsucc ⊢
      rw [hu] at hsucc ⊢
      dsimp only at hsucc ⊢
      by_cases hvp : (!(validate_password_strength cfg np).is_valid) = true
      · rw [if_pos hvp] at hsucc
        simp at hsucc
      · rw [if_neg hvp]
        exact allRevokedFor_deactivate u.id ss
  · intro ss uid tk hown hall s hs htok
    exact hall s hs (hown s hs htok)
  · intro cfg now tk ss users hrev
    have hfind : ss.find? (fun s => token_matches (.valid tk) s.refresh_token && s.is_active)
        = none := by
      rw [List.find?_eq_none]
      intro s hs hc
      simp only [Bool.and_eq_true, token_matches, beq_iff_eq] at hc
      have hinact := hrev s hs hc.1.symm
      rw [hinact] at hc
      exact absurd hc.2 (by simp)
    constructor
    · unfold refresh_access_token
      cases hv : verify_token cfg now (.valid tk) "refresh" with
      | raised m => rfl
      | ok p =>
        cases p with
        | none => rfl
        | some payload =>
          dsimp only
          cases hsub : dget payload "sub" with
          | none => rfl
          | some jv =>
            cases jv with
            | n v => rfl
            | s user_id =>
              dsimp only
              by_cases hemp : user_id = ""
              · rw [if_pos hemp]
                rfl
              · rw [if_neg hemp, hfind]
                rfl
    · intro o ho
      unfold refresh_access_token at ho
      cases hv : verify_token cfg now (.valid tk) "refresh" with
      | raised m =>
        rw [hv] at ho
        cases ho
      | ok p =>
        rw [hv] at ho
        cases p with
        | none =>
          cases ho
          rfl
        | some payload =>
          dsimp only at ho
          cases hsub : dget payload "sub" with
          | none =>
            rw [hsub] at ho
            cases ho
            rfl
          | some jv =>
            rw [hsub] at ho
            cases jv with
            | n v => cases ho
            | s user_id =>
              dsimp only at ho
              by_cases hemp : user_id = ""
              · rw [if_pos hemp] at ho
                cases ho
                rfl
              · rw [if_neg hemp, hfind] at ho
                cases ho
                rfl
  · intro op ss hnd hfresh
    cases op with
    | logout uid rt all =>
      show noReactivation ss ((logout_user uid rt all ss).2)
      cases all
      · cases rt with
        | none => exact noReactivation_deactivate uid ss hnd
        | some t =>
          show noReactivation ss (ss.map fun s =>
            if s.user_id == uid && token_matches t s.refresh_token then
              { s with is_active := false } else s)
          apply noReactivation_map _ _ _ _ hnd
          · intro s
            dsimp only
            split
            · rfl
            · rfl
          · intro s hsa
            dsimp only
            split
            · rfl
            · exact hsa
      · exact noReactivation_deactivate uid ss hnd
    | changePassword cfg now found cur new =>
      rcases change_password_post_sessions cfg now found cur new ss with h | ⟨uid, h⟩
      · rw [h]
        exact noReactivation_self ss hnd
      · rw [h]
        exact noReactivation_deactivate uid ss hnd
    | resetPassword cfg now tok np users resets =>
      show noReactivation ss ((reset_password cfg now tok np users resets ss).sessions)
      rcases reset_password_post_sessions cfg now tok np users resets ss with h | ⟨uid, h⟩
      · rw [h]
        exact noReactivation_self ss hnd
      · rw [h]
        exact noReactivation_deactivate uid ss hnd
    | lockUser now found =>
      show noReactivation ss ((lock_user now found ss).2.2)
      cases found with
      | none => exact noReactivation_self ss hnd
      | some u => exact noReactivation_deactivate u.id ss hnd
    | revokeSession uid sid =>
      show noReactivation ss ((revoke_session uid sid ss).2)
      unfold revoke_session
      cases hf : ss.find? (fun s => s.id == sid && s.user_id == uid && s.is_active) with
      | none => exact noReactivation_self ss hnd
      | some s0 =>
        dsimp only
        apply noReactivation_map _ _ _ _ hnd
        · intro s
          dsimp only
          split
          · rfl
          · rfl
        · intro s hsa
          dsimp only
          split
          · rfl
          · exact hsa
    | cleanupExpired now =>
      show noReactivation ss ((cleanup_expired_sessions now ss).2)
      apply noReactivation_map _ _ _ _ hnd
      · intro s
        dsimp only
        split
        · rfl
        · rfl
      · intro s hsa
        dsimp only
        split
        · rfl
        · exact hsa
    | refreshAccess cfg now tok users =>
      show noReactivation ss (match refresh_access_token cfg now tok ss users with
        | .ok o => o.sessions
        | .raised _ => ss)
      cases hr : refresh_access_token cfg now tok ss users with
      | raised m => exact noReactivation_self ss hnd
      | ok o =>
        dsimp only
        rcases refresh_sessions_shape cfg now tok ss users o hr with h | ⟨sid, h⟩
        · rw [h]
          exact noReactivation_self ss hnd
        · rw [h]
          apply noReactivation_map _ _ _ _ hnd
          · intro s
            dsimp only
            split
            · rfl
            · rfl
          · intro s hsa
            dsimp only
            split
            · exact hsa
            · exact hsa
    | createSession cfg now u remember jti newId =>
      refine noReactivation_append ss _ hnd ?_
      intro s2 hs2 s hs
      rw [List.mem_singleton] at hs2
      subst hs2
      exact hfresh newId (List.mem_singleton_self _) s hs

/-- Witness for C2: with the stored session of userA revoked, presenting
its unexpired refresh token mints nothing and writes nothing. -/
theorem refresh_revocation_permanent_witness :
    mintedToken (refresh_access_token cfg0 0 (.valid tok0)
      [{ sess0 with is_active := false }] [userA]) = none ∧
    ∀ o, refresh_access_token cfg0 0 (.valid tok0)
      [{ sess0 with is_active := false }] [userA] = .ok o →
      o.sessions = [{ sess0 with is_active := false }] :=
  refresh_revocation_permanent.2.2.2.2.2.2.1 cfg0 0 tok0
    [{ sess0 with is_active := false }] [userA]
    (by
      intro s hs htok
      rw [List.mem_singleton] at hs
      subst hs
      rfl)

end Authen
